import Mathlib

/-!
# Verification of the BTC price fetch/cache/fallback coordinator

Shallow embedding of the two core components of the repository:

* `CoingeckoPriceProvider.get_btc_usd_price` (src/price_provider.py):
  bounded-retry fetch of the BTC/USD quote, classifying each failed
  attempt into an error message and surfacing the last one.
* the Flask route `get_btc_price` together with `get_cached_price` and
  `update_cache` (src/app.py): TTL cache with stale-on-error fallback.

Modelling conventions:
* Wall-clock times and durations are rationals (`ℚ`).
* Python floats that are merely parsed and carried (the price) are the
  inductive `PyFloat`: a finite rational or one of the non-finite values
  `float("nan")`, `float("inf")`, `float("-inf")`.  The code performs no
  arithmetic on the price, so this tagged representation is exact.
* Library timestamp formatting (`datetime.fromtimestamp(..).isoformat()`,
  `datetime.now(utc).isoformat()`, `time.strftime(.., time.gmtime())`) is
  outside the repository; each call is embedded as a distinct constructor
  of `Timestamp` applied to its argument.
* The network is an environment `env : Nat → ℚ × AttemptOutcome` giving,
  for each attempt number, the wall time at that attempt and the outcome
  of the single `requests.get` call it issues.
* `PriceProviderError` carries only its message, so errors are `String`s.
* Fetch results additionally report the number of outbound HTTP calls
  issued, so that call-count properties can be stated.
-/

/-- A Python float as carried by the code: finite value or a non-finite
    special value.  No arithmetic is performed on these. -/
inductive PyFloat where
  | finite (q : ℚ)
  | nan
  | inf
  | neginf
deriving DecidableEq, Repr

/-- `true` iff the value is a finite number strictly greater than zero. -/
def PyFloat.posFinite : PyFloat → Bool
  | .finite q => decide (0 < q)
  | _ => false

/-- The `"usd"` member of the `"bitcoin"` JSON object, as seen by
    `float(bitcoin["usd"])`:
    * `missing` — key absent (`KeyError`),
    * `notCastable` — present but `float()` raises (`TypeError`/`ValueError`),
    * `castable v` — `float()` succeeds and yields `v` (which may be
      non-positive or non-finite: `float()` itself checks neither). -/
inductive UsdField where
  | missing
  | notCastable
  | castable (v : PyFloat)
deriving DecidableEq, Repr

/-- The `"last_updated_at"` member as seen by
    `isinstance(ts, (int, float))` after `bitcoin.get("last_updated_at")`:
    absent, present but non-numeric, or a numeric epoch-seconds value. -/
inductive TsField where
  | absent
  | nonNumeric
  | numeric (ts : ℚ)
deriving DecidableEq, Repr

/-- The `"bitcoin"` JSON object. -/
structure BitcoinObj where
  usd : UsdField
  last_updated_at : TsField
deriving DecidableEq, Repr

/-- A successfully parsed JSON body.  `dataRepr` is the string interpolated
    into the structure-error message; `bitcoin` is `none` when
    `data["bitcoin"]` raises (`KeyError`/`TypeError`). -/
structure JsonBody where
  dataRepr : String
  bitcoin : Option BitcoinObj
deriving DecidableEq, Repr

/-- An HTTP response as used by the code: status, the (truncated) text
    preview used in error messages, and the result of `.json()`
    (`none` when JSON parsing raises `ValueError`). -/
structure HttpResponse where
  status_code : Nat
  textPreview : String
  jsonResult : Option JsonBody
deriving DecidableEq, Repr

/-- Outcome of one `requests.get` call: a `requests.RequestException`
    carrying a message, or an `HttpResponse`. -/
inductive AttemptOutcome where
  | exn (msg : String)
  | resp (r : HttpResponse)
deriving DecidableEq, Repr

/-- An ISO-8601 / formatted timestamp string, embedded as the library call
    that produced it applied to its argument:
    * `epochUtcIso ts` — `datetime.fromtimestamp(ts, tz=timezone.utc).isoformat()`,
    * `nowUtcIso t` — `datetime.now(tz=timezone.utc).isoformat()` at wall time `t`,
    * `strftimeGmt t` — `time.strftime("%Y-%m-%dT%H:%M:%SZ", time.gmtime())`
      at wall time `t`. -/
inductive Timestamp where
  | epochUtcIso (ts : ℚ)
  | nowUtcIso (t : ℚ)
  | strftimeGmt (t : ℚ)
deriving DecidableEq, Repr

/-- The dict returned by `get_btc_usd_price` on success. -/
structure Quote where
  price : PyFloat
  source : String
  provider_last_updated : Timestamp
deriving DecidableEq, Repr

/-- One iteration of the retry loop of `get_btc_usd_price`
    (src/price_provider.py lines 70-132): classify the outcome of the
    single `requests.get` of this attempt into either the
    `PriceProviderError` message assigned to `last_error`, or the returned
    quote dict.  `now` is the wall time of the attempt, used by
    `datetime.now` when `last_updated_at` is absent or non-numeric. -/
def attemptStep (now : ℚ) (o : AttemptOutcome) : Except String Quote :=
  match o with
  | .exn msg => .error ("Network error calling Coingecko: " ++ msg)
  | .resp r =>
    if r.status_code ≠ 200 then
      .error ("Coingecko returned status " ++ toString r.status_code ++ ": " ++ r.textPreview)
    else
      match r.jsonResult with
      | none => .error "Failed to parse JSON from Coingecko"
      | some data =>
        match data.bitcoin with
        | none => .error ("Unexpected Coingecko response structure: " ++ data.dataRepr)
        | some bitcoin =>
          match bitcoin.usd with
          | .missing => .error ("Unexpected Coingecko response structure: " ++ data.dataRepr)
          | .notCastable => .error ("Unexpected Coingecko response structure: " ++ data.dataRepr)
          | .castable price =>
            let provider_last_updated :=
              match bitcoin.last_updated_at with
              | .numeric ts => Timestamp.epochUtcIso ts
              | _ => Timestamp.nowUtcIso now
            .ok { price := price
                  source := "coingecko"
                  provider_last_updated := provider_last_updated }

/-- The provider dataclass (src/price_provider.py lines 32-46).
    `retry_attempts` is a Python `int`, hence `ℤ`. -/
structure CoingeckoPriceProvider where
  base_url : String
  timeout_seconds : ℚ := 3
  retry_attempts : ℤ := 2
  retry_backoff_seconds : ℚ := 3 / 10
deriving DecidableEq, Repr

/-- The retry loop `for attempt in range(1, retry_attempts + 1)` followed by
    `raise last_error or PriceProviderError("Unknown error calling Coingecko")`,
    with `fuel` the number of remaining iterations, `attempt` the current
    attempt number and `last_error` the accumulator.  Also counts the
    outbound `requests.get` calls issued (one per iteration executed). -/
def runAttempts (env : Nat → ℚ × AttemptOutcome) :
    Nat → Nat → Option String → Except String Quote × Nat
  | 0, _, last_error => (.error (last_error.getD "Unknown error calling Coingecko"), 0)
  | fuel + 1, attempt, _ =>
    match attemptStep (env attempt).1 (env attempt).2 with
    | .ok q => (.ok q, 1)
    | .error e =>
      let rest := runAttempts env fuel (attempt + 1) (some e)
      (rest.1, rest.2 + 1)

/-- `CoingeckoPriceProvider.get_btc_usd_price` (src/price_provider.py
    lines 48-149): run up to `retry_attempts` attempts starting at attempt
    number 1 with no `last_error`; return the quote or raise the last
    error, together with the number of outbound HTTP calls issued. -/
def CoingeckoPriceProvider.get_btc_usd_price (p : CoingeckoPriceProvider)
    (env : Nat → ℚ × AttemptOutcome) : Except String Quote × Nat :=
  runAttempts env p.retry_attempts.toNat 1 none

/-!
## The Flask app layer (src/app.py)
-/

/-- Python's `round` to the nearest integer: half-to-even (banker's
    rounding), as an exact function on rationals. -/
def pyRoundInt (q : ℚ) : ℤ :=
  let f := ⌊q⌋
  let frac := q - f
  if frac < 1 / 2 then f
  else if 1 / 2 < frac then f + 1
  else if f % 2 = 0 then f else f + 1

/-- Python's `round(x, 2)` as an exact function on rationals. -/
def pyRound2 (q : ℚ) : ℚ := (pyRoundInt (q * 100) : ℚ) / 100

/-- The normalized JSON payload built in `get_btc_price` and stored in the
    cache (src/app.py lines 145-157). -/
structure Payload where
  symbol : String
  currency : String
  price : PyFloat
  source : String
  provider_last_updated : Timestamp
  server_last_updated : Timestamp
  stale : Bool
  cache_age_seconds : ℚ
deriving DecidableEq, Repr

/-- The module-level `_price_cache` dict (src/app.py lines 51-54):
    `data` is the last successful payload (initially `None`), `fetched_at`
    the unix timestamp of the last fetch (initially `0.0`). -/
structure CacheState where
  data : Option Payload
  fetched_at : ℚ
deriving DecidableEq, Repr

/-- The dict returned by `get_cached_price` on a hit. -/
structure CachedView where
  data : Payload
  age_seconds : ℚ
  stale : Bool
deriving DecidableEq, Repr

/-- The wall-clock readings taken during one `get_btc_price` request, in
    program order: `check` at the first `get_cached_price`, `serverStamp`
    at `time.gmtime()` for `server_last_updated`, `update` at
    `time.time()` inside `update_cache`, and `staleCheck` at the
    `get_cached_price(allow_stale=True)` of the error branch. -/
structure Times where
  check : ℚ
  serverStamp : ℚ
  update : ℚ
  staleCheck : ℚ
deriving DecidableEq, Repr

/-- The HTTP result of the route: a 200 JSON payload (with the optional
    `warning` key of the stale branch), or an `{error, details}` body with
    its status code. -/
inductive ApiResult where
  | okPayload (payload : Payload) (warning : Option String)
  | errorResponse (error : String) (details : String) (status : Nat)
deriving DecidableEq, Repr

/-- `get_cached_price` (src/app.py lines 57-76): return the cached price
    if present and within TTL; with `allow_stale` also when expired.
    A pure function of the cache state — it performs no mutation. -/
def get_cached_price (ttl now : ℚ) (c : CacheState) (allow_stale : Bool) :
    Option CachedView :=
  match c.data with
  | none => none
  | some d =>
    let age := now - c.fetched_at
    let is_fresh : Bool := decide (age ≤ ttl)
    if !is_fresh && !allow_stale then none
    else some { data := d, age_seconds := age, stale := !is_fresh }

/-- `update_cache` (src/app.py lines 79-82): overwrite both slots;
    `now` is the `time.time()` it reads. -/
def update_cache (now : ℚ) (data : Payload) (_c : CacheState) : CacheState :=
  { data := some data, fetched_at := now }

/-- The `response_payload` dict built from a successful provider fetch
    (src/app.py lines 145-157). -/
def mkResponsePayload (q : Quote) (serverStamp : ℚ) : Payload :=
  { symbol := "BTC"
    currency := "USD"
    price := q.price
    source := q.source
    provider_last_updated := q.provider_last_updated
    server_last_updated := Timestamp.strftimeGmt serverStamp
    stale := false
    cache_age_seconds := 0 }

/-- The route handler `get_btc_price` (src/app.py lines 100-215) as a
    state-passing function: given the TTL, the provider and its network
    environment, the wall-clock readings of this request and the current
    cache state, produce the HTTP result, the new cache state, and the
    number of outbound HTTP calls issued. -/
def get_btc_price (ttl : ℚ) (p : CoingeckoPriceProvider)
    (env : Nat → ℚ × AttemptOutcome) (tm : Times) (c : CacheState) :
    ApiResult × CacheState × Nat :=
  match get_cached_price ttl tm.check c false with
  | some cached =>
    (ApiResult.okPayload
      { cached.data with
          stale := cached.stale
          cache_age_seconds := pyRound2 cached.age_seconds }
      none,
     c, 0)
  | none =>
    match p.get_btc_usd_price env with
    | (.ok provider_payload, calls) =>
      let response_payload := mkResponsePayload provider_payload tm.serverStamp
      (ApiResult.okPayload response_payload none,
       update_cache tm.update response_payload c, calls)
    | (.error e, calls) =>
      match get_cached_price ttl tm.staleCheck c true with
      | some stale_cached =>
        (ApiResult.okPayload
          { stale_cached.data with
              stale := true
              cache_age_seconds := pyRound2 stale_cached.age_seconds }
          (some "Using stale cached price due to upstream error."),
         c, calls)
      | none =>
        (ApiResult.errorResponse
          "Failed to fetch BTC price from upstream provider." e 502,
         c, calls)

/-!
## Helper lemmas
-/

/-- Each loop iteration issues exactly one `requests.get`, so a fetch never
    issues more calls than it has iterations. -/
theorem runAttempts_count_le (env : Nat → ℚ × AttemptOutcome) :
    ∀ (n a : Nat) (le : Option String), (runAttempts env n a le).2 ≤ n := by
  intro n
  induction n with
  | zero => intro a le; simp [runAttempts]
  | succ m ih =>
    intro a le
    simp only [runAttempts]
    cases attemptStep (env a).1 (env a).2 with
    | ok q => simp
    | error e => simpa using ih (a + 1) (some e)

/-- With at least one iteration, at least one call is issued. -/
theorem runAttempts_count_pos (env : Nat → ℚ × AttemptOutcome)
    (n a : Nat) (le : Option String) (h : 1 ≤ n) :
    1 ≤ (runAttempts env n a le).2 := by
  cases n with
  | zero => omega
  | succ m =>
    simp only [runAttempts]
    cases attemptStep (env a).1 (env a).2 with
    | ok q => simp
    | error e => simp

/-- If every attempt fails, the loop runs to the end: it issues exactly one
    call per iteration and ends in an error. -/
theorem runAttempts_all_fail (env : Nat → ℚ × AttemptOutcome)
    (hfail : ∀ i, ∃ e, attemptStep (env i).1 (env i).2 = .error e) :
    ∀ (n a : Nat) (le : Option String),
      (runAttempts env n a le).2 = n ∧ ∃ m, (runAttempts env n a le).1 = .error m := by
  intro n
  induction n with
  | zero => intro a le; exact ⟨rfl, le.getD "Unknown error calling Coingecko", rfl⟩
  | succ k ih =>
    intro a le
    obtain ⟨e, he⟩ := hfail a
    simp only [runAttempts, he]
    obtain ⟨hcount, m, hm⟩ := ih (a + 1) (some e)
    exact ⟨by simp [hcount], m, hm⟩

/-- If every attempt fails, the error surfaced is the one classified on the
    final attempt (`a + n - 1` when starting from attempt `a` with `n`
    iterations). -/
theorem runAttempts_last_error (env : Nat → ℚ × AttemptOutcome)
    (hfail : ∀ i, ∃ e, attemptStep (env i).1 (env i).2 = .error e) :
    ∀ (n a : Nat) (le : Option String) (m : String), 1 ≤ n →
      attemptStep (env (a + n - 1)).1 (env (a + n - 1)).2 = .error m →
      (runAttempts env n a le).1 = .error m := by
  intro n
  induction n with
  | zero => omega
  | succ k ih =>
    intro a le m _ hlast
    cases k with
    | zero =>
      have ha : a + 1 - 1 = a := by omega
      rw [ha] at hlast
      simp only [runAttempts, hlast]
      rfl
    | succ k' =>
      obtain ⟨e, he⟩ := hfail a
      simp only [runAttempts, he]
      have hidx : a + 1 + (k' + 1) - 1 = a + (k' + 1 + 1) - 1 := by omega
      exact ih (a + 1) (some e) m (by omega) (by rw [hidx]; exact hlast)

/-- A quote comes out of the loop only if some attempt in range produced
    exactly that quote. -/
theorem runAttempts_ok_origin (env : Nat → ℚ × AttemptOutcome) :
    ∀ (n a : Nat) (le : Option String) (q : Quote),
      (runAttempts env n a le).1 = .ok q →
      ∃ i, a ≤ i ∧ i < a + n ∧ attemptStep (env i).1 (env i).2 = .ok q := by
  intro n
  induction n with
  | zero => intro a le q h; simp [runAttempts] at h
  | succ k ih =>
    intro a le q h
    simp only [runAttempts] at h
    cases hstep : attemptStep (env a).1 (env a).2 with
    | ok q' =>
      rw [hstep] at h
      simp only at h
      cases h
      exact ⟨a, le_refl a, by omega, hstep⟩
    | error e =>
      rw [hstep] at h
      simp only at h
      obtain ⟨i, hai, hin, hok⟩ := ih (a + 1) (some e) q h
      exact ⟨i, by omega, by omega, hok⟩

/-- Half-to-even rounding is within `1/2` below the argument. -/
theorem pyRoundInt_ge (q : ℚ) : q - 1 / 2 ≤ (pyRoundInt q : ℚ) := by
  simp only [pyRoundInt]
  have h1 := Int.floor_le q
  have h2 := Int.lt_floor_add_one q
  split_ifs <;> push_cast <;> linarith

/-- Half-to-even rounding is within `1/2` above the argument. -/
theorem pyRoundInt_le (q : ℚ) : (pyRoundInt q : ℚ) ≤ q + 1 / 2 := by
  simp only [pyRoundInt]
  have h1 := Int.floor_le q
  have h2 := Int.lt_floor_add_one q
  split_ifs <;> push_cast <;> linarith

/-- `round(x, 2)` is within `0.005` below `x`. -/
theorem pyRound2_ge (q : ℚ) : q - 1 / 200 ≤ pyRound2 q := by
  unfold pyRound2
  rw [le_div_iff₀ (by norm_num : (0 : ℚ) < 100)]
  linarith [pyRoundInt_ge (q * 100)]

/-- `round(x, 2)` is within `0.005` above `x`. -/
theorem pyRound2_le (q : ℚ) : pyRound2 q ≤ q + 1 / 200 := by
  unfold pyRound2
  rw [div_le_iff₀ (by norm_num : (0 : ℚ) < 100)]
  linarith [pyRoundInt_le (q * 100)]

/-- Inversion: a successful attempt came from a 200 response whose body
    parsed, had a `"bitcoin"` object, and a castable `"usd"` member; the
    quote is exactly the one built from those fields. -/
theorem attemptStep_ok_inv (now : ℚ) (o : AttemptOutcome) (q : Quote)
    (h : attemptStep now o = .ok q) :
    ∃ r data b v, o = .resp r ∧ r.status_code = 200 ∧ r.jsonResult = some data ∧
      data.bitcoin = some b ∧ b.usd = .castable v ∧
      q = { price := v
            source := "coingecko"
            provider_last_updated :=
              match b.last_updated_at with
              | .numeric ts => Timestamp.epochUtcIso ts
              | _ => Timestamp.nowUtcIso now } := by
  cases o with
  | exn m => simp [attemptStep] at h
  | resp r =>
    obtain ⟨sc, tp, js⟩ := r
    by_cases hs : sc = 200
    · subst hs
      cases js with
      | none => simp [attemptStep] at h
      | some data =>
        obtain ⟨drepr, bit⟩ := data
        cases bit with
        | none => simp [attemptStep] at h
        | some b =>
          obtain ⟨usd, lua⟩ := b
          cases usd with
          | missing => simp [attemptStep] at h
          | notCastable => simp [attemptStep] at h
          | castable v =>
            refine ⟨⟨200, tp, some ⟨drepr, some ⟨UsdField.castable v, lua⟩⟩⟩,
              ⟨drepr, some ⟨UsdField.castable v, lua⟩⟩, ⟨UsdField.castable v, lua⟩, v,
              rfl, rfl, rfl, rfl, rfl, ?_⟩
            simp [attemptStep] at h
            subst h
            rfl
    · simp [attemptStep, hs] at h

/-!
## Fixtures used by witnesses and counterexamples
-/

/-- A network environment in which every `requests.get` raises. -/
def envAlwaysNetErr : Nat → ℚ × AttemptOutcome := fun _ => (0, .exn "boom")

/-- A network environment whose attempts fail with different errors, the
    first a network error and every later one a 500 status. -/
def envTwoErrors : Nat → ℚ × AttemptOutcome := fun i =>
  (0, if i = 1 then .exn "first" else .resp { status_code := 500, textPreview := "oops", jsonResult := none })

/-- A well-formed 200 body whose price is the negative number `-5`. -/
def respNegativePrice : HttpResponse :=
  { status_code := 200
    textPreview := ""
    jsonResult := some
      { dataRepr := "neg"
        bitcoin := some { usd := .castable (.finite (-5)), last_updated_at := .numeric 1700000000 } } }

/-- A network environment that always returns the negative-price body. -/
def envNegativePrice : Nat → ℚ × AttemptOutcome := fun _ => (0, .resp respNegativePrice)

/-- A well-formed 200 body whose price is `float("nan")` (Python's `json`
    module accepts `NaN` in bodies, and `float()` accepts it). -/
def respNanPrice : HttpResponse :=
  { status_code := 200
    textPreview := ""
    jsonResult := some
      { dataRepr := "nan"
        bitcoin := some { usd := .castable .nan, last_updated_at := .absent } } }

/-- A network environment that always returns the NaN-price body. -/
def envNanPrice : Nat → ℚ × AttemptOutcome := fun _ => (7, .resp respNanPrice)

/-- A healthy environment: every attempt returns a 200 body with price
    `50000.12` and a numeric `last_updated_at`. -/
def envHealthy : Nat → ℚ × AttemptOutcome := fun _ =>
  (0, .resp
    { status_code := 200
      textPreview := ""
      jsonResult := some
        { dataRepr := "ok"
          bitcoin := some
            { usd := .castable (.finite (5000012 / 100))
              last_updated_at := .numeric 1700000000 } } })

/-- The quote produced by `envHealthy`. -/
def quoteHealthy : Quote :=
  { price := .finite (5000012 / 100)
    source := "coingecko"
    provider_last_updated := .epochUtcIso 1700000000 }

/-- A provider configured with one retry attempt. -/
def providerOne : CoingeckoPriceProvider := { base_url := "https://example.test", retry_attempts := 1 }

/-- A provider configured with two retry attempts. -/
def providerTwo : CoingeckoPriceProvider := { base_url := "https://example.test", retry_attempts := 2 }

/-- A provider configured with three retry attempts. -/
def providerThree : CoingeckoPriceProvider := { base_url := "https://example.test", retry_attempts := 3 }

/-- A provider configured with zero retry attempts. -/
def providerZero : CoingeckoPriceProvider := { base_url := "https://example.test", retry_attempts := 0 }

/-!
## Claims about `CoingeckoPriceProvider.get_btc_usd_price`
-/

/-- C2. Retry exhaustion: with `retry_attempts = k ≥ 1` and an upstream
    failing on every attempt, `get_btc_usd_price` issues exactly `k`
    outbound HTTP calls and raises a `PriceProviderError`; on any outcome
    it never issues more than `retry_attempts` calls. -/
theorem retry_exhaustion (p : CoingeckoPriceProvider) (env : Nat → ℚ × AttemptOutcome) :
    (1 ≤ p.retry_attempts →
      (∀ i, ∃ e, attemptStep (env i).1 (env i).2 = .error e) →
      ∃ e, p.get_btc_usd_price env = (.error e, p.retry_attempts.toNat)) ∧
    (p.get_btc_usd_price env).2 ≤ p.retry_attempts.toNat := by
  constructor
  · intro _ hfail
    obtain ⟨hcount, m, hm⟩ := runAttempts_all_fail env hfail p.retry_attempts.toNat 1 none
    exact ⟨m, Prod.ext_iff.mpr ⟨hm, hcount⟩⟩
  · exact runAttempts_count_le env p.retry_attempts.toNat 1 none

/-- Witness for C2 at `k = 3` with an always-failing network. -/
theorem retry_exhaustion_witness :
    ∃ e, providerThree.get_btc_usd_price envAlwaysNetErr = (.error e, 3) :=
  (retry_exhaustion providerThree envAlwaysNetErr).1 (by decide)
    (fun _ => ⟨"Network error calling Coingecko: " ++ "boom", rfl⟩)

/-- C7. Last-error surfacing: when all attempts fail, the raised error is
    the one classified on the last attempt (attempt `retry_attempts`); and
    a quote is returned only when some attempt fully succeeded with
    exactly that quote. -/
theorem last_error_surfacing (p : CoingeckoPriceProvider) (env : Nat → ℚ × AttemptOutcome) :
    (∀ m, 1 ≤ p.retry_attempts →
      (∀ i, ∃ e, attemptStep (env i).1 (env i).2 = .error e) →
      attemptStep (env p.retry_attempts.toNat).1 (env p.retry_attempts.toNat).2 = .error m →
      (p.get_btc_usd_price env).1 = .error m) ∧
    (∀ q, (p.get_btc_usd_price env).1 = .ok q →
      ∃ i, 1 ≤ i ∧ i ≤ p.retry_attempts.toNat ∧ attemptStep (env i).1 (env i).2 = .ok q) := by
  constructor
  · intro m hk hfail hlast
    have h1 : 1 ≤ p.retry_attempts.toNat := by omega
    have hidx : 1 + p.retry_attempts.toNat - 1 = p.retry_attempts.toNat := by omega
    exact runAttempts_last_error env hfail p.retry_attempts.toNat 1 none m h1
      (by rw [hidx]; exact hlast)
  · intro q hq
    obtain ⟨i, hi1, hi2, hok⟩ := runAttempts_ok_origin env p.retry_attempts.toNat 1 none q hq
    exact ⟨i, hi1, by omega, hok⟩

/-- Witness for C7: two attempts failing with different errors; the
    surfaced message is the second (status) error, not the first
    (network) error. -/
theorem last_error_surfacing_witness :
    (providerTwo.get_btc_usd_price envTwoErrors).1 =
      .error ("Coingecko returned status " ++ toString 500 ++ ": " ++ "oops") :=
  (last_error_surfacing providerTwo envTwoErrors).1 _ (by decide)
    (fun i => by
      by_cases h : i = 1
      · exact ⟨"Network error calling Coingecko: " ++ "first", by simp [envTwoErrors, h, attemptStep]⟩
      · exact ⟨"Coingecko returned status " ++ toString 500 ++ ": " ++ "oops",
          by simp [envTwoErrors, h, attemptStep]⟩)
    rfl

/-- C10. With `retry_attempts ≤ 0` the loop body never runs: no outbound
    HTTP call is issued and the fallback `PriceProviderError` with message
    `"Unknown error calling Coingecko"` is raised. -/
theorem retry_attempts_nonpositive_no_calls (p : CoingeckoPriceProvider)
    (env : Nat → ℚ × AttemptOutcome) (h : p.retry_attempts ≤ 0) :
    p.get_btc_usd_price env = (.error "Unknown error calling Coingecko", 0) := by
  unfold CoingeckoPriceProvider.get_btc_usd_price
  rw [Int.toNat_of_nonpos h]
  rfl

/-- Witness for C10 at `retry_attempts = 0`. -/
theorem retry_attempts_nonpositive_no_calls_witness :
    providerZero.get_btc_usd_price envAlwaysNetErr =
      (.error "Unknown error calling Coingecko", 0) :=
  retry_attempts_nonpositive_no_calls providerZero envAlwaysNetErr (by decide)

/-- The 200 response returned by `envHealthy`. -/
def respHealthy : HttpResponse :=
  { status_code := 200
    textPreview := ""
    jsonResult := some
      { dataRepr := "ok"
        bitcoin := some
          { usd := .castable (.finite (5000012 / 100))
            last_updated_at := .numeric 1700000000 } } }

/-- A 200 response whose body has no `last_updated_at`. -/
def respNoTs : HttpResponse :=
  { status_code := 200
    textPreview := ""
    jsonResult := some
      { dataRepr := "nots"
        bitcoin := some { usd := .castable (.finite 7), last_updated_at := .absent } } }

/-- A 200 response whose body lacks the `usd` member. -/
def respMissingUsd : HttpResponse :=
  { status_code := 200
    textPreview := ""
    jsonResult := some
      { dataRepr := "missing"
        bitcoin := some { usd := .missing, last_updated_at := .absent } } }

/-- C9. Provider timestamp normalization: on a successful attempt, a
    numeric `bitcoin.last_updated_at` is converted to UTC ISO-8601
    (`datetime.fromtimestamp(ts, utc).isoformat()`); an absent or
    non-numeric one makes the code stamp the current UTC time
    (`datetime.now(utc).isoformat()` at the attempt's wall time). -/
theorem provider_timestamp_normalization (now : ℚ) (r : HttpResponse)
    (data : JsonBody) (b : BitcoinObj) (q : Quote)
    (hjson : r.jsonResult = some data) (hb : data.bitcoin = some b)
    (hok : attemptStep now (.resp r) = .ok q) :
    (∀ ts, b.last_updated_at = .numeric ts → q.provider_last_updated = .epochUtcIso ts) ∧
    ((b.last_updated_at = .absent ∨ b.last_updated_at = .nonNumeric) →
      q.provider_last_updated = .nowUtcIso now) := by
  obtain ⟨r', data', b', v, hr, _, hj', hb', _, hq⟩ := attemptStep_ok_inv now (.resp r) q hok
  injection hr with hr'
  subst hr'
  rw [hjson] at hj'
  injection hj' with hd'
  subst hd'
  rw [hb] at hb'
  injection hb' with hb''
  subst hb''
  constructor
  · intro ts hts
    rw [hq, hts]
  · intro habs
    rcases habs with h | h <;> rw [hq, h]

/-- Witness for C9: a numeric `last_updated_at` yields its epoch instant
    in UTC ISO-8601; an absent one yields the current UTC time. -/
theorem provider_timestamp_normalization_witness :
    quoteHealthy.provider_last_updated = .epochUtcIso 1700000000 ∧
    ({ price := .finite 7, source := "coingecko",
       provider_last_updated := .nowUtcIso 42 } : Quote).provider_last_updated =
      .nowUtcIso 42 :=
  ⟨(provider_timestamp_normalization 0 respHealthy _ _ quoteHealthy rfl rfl rfl).1
      1700000000 rfl,
   (provider_timestamp_normalization 42 respNoTs _ _ _ rfl rfl rfl).2 (Or.inl rfl)⟩

/-- C5 fails on the code: `float(bitcoin["usd"])` is not checked for
    positivity or finiteness, so a well-formed 200 body with the negative
    price `-5` produces a Quote whose price is not positive, and one with
    a `NaN` price produces a Quote whose price is not finite — neither is
    classified as a fetch failure. -/
theorem quote_price_validity_counterexample :
    ((providerOne.get_btc_usd_price envNegativePrice).1 =
      .ok { price := .finite (-5), source := "coingecko",
            provider_last_updated := .epochUtcIso 1700000000 } ∧
     (PyFloat.finite (-5)).posFinite = false) ∧
    ((providerOne.get_btc_usd_price envNanPrice).1 =
      .ok { price := .nan, source := "coingecko",
            provider_last_updated := .nowUtcIso 7 } ∧
     PyFloat.nan.posFinite = false) :=
  ⟨⟨rfl, rfl⟩, ⟨rfl, rfl⟩⟩

/-- C5 amended: a missing or non-numeric `bitcoin.usd` in a parsed 200
    body is classified as a fetch failure (the structure error), and every
    Quote returned carries exactly the value `float()` produced from some
    attempt's `bitcoin.usd` — which the code does not check for
    positivity or finiteness. -/
theorem quote_price_validity_amended (p : CoingeckoPriceProvider)
    (env : Nat → ℚ × AttemptOutcome) :
    (∀ now r data b, r.status_code = 200 → r.jsonResult = some data →
      data.bitcoin = some b → (b.usd = .missing ∨ b.usd = .notCastable) →
      attemptStep now (.resp r) =
        .error ("Unexpected Coingecko response structure: " ++ data.dataRepr)) ∧
    (∀ q, (p.get_btc_usd_price env).1 = .ok q →
      ∃ i r data b, 1 ≤ i ∧ i ≤ p.retry_attempts.toNat ∧ (env i).2 = .resp r ∧
        r.jsonResult = some data ∧ data.bitcoin = some b ∧
        b.usd = .castable q.price) := by
  constructor
  · intro now r data b hs hj hbit hbad
    rcases hbad with h | h <;> simp [attemptStep, hs, hj, hbit, h]
  · intro q hq
    obtain ⟨i, h1, h2, hok⟩ := runAttempts_ok_origin env p.retry_attempts.toNat 1 none q hq
    obtain ⟨r, data, b, v, hr, _, hj, hbit, hu, hquote⟩ :=
      attemptStep_ok_inv (env i).1 (env i).2 q hok
    refine ⟨i, r, data, b, h1, by omega, hr, hj, hbit, ?_⟩
    have hp : q.price = v := by rw [hquote]
    rw [hp]
    exact hu

/-- Witness for the amended C5: the missing-`usd` body is a structure
    error, and the negative-price run returns a Quote whose price is the
    castable value of the body. -/
theorem quote_price_validity_amended_witness :
    attemptStep 0 (.resp respMissingUsd) =
      .error ("Unexpected Coingecko response structure: " ++ "missing") ∧
    ∃ i r data b, 1 ≤ i ∧ i ≤ providerOne.retry_attempts.toNat ∧
      (envNegativePrice i).2 = .resp r ∧ r.jsonResult = some data ∧
      data.bitcoin = some b ∧ b.usd = .castable (PyFloat.finite (-5)) :=
  ⟨(quote_price_validity_amended providerOne envNegativePrice).1 0 respMissingUsd _ _
      rfl rfl rfl (Or.inl rfl),
   (quote_price_validity_amended providerOne envNegativePrice).2
      { price := .finite (-5), source := "coingecko",
        provider_last_updated := .epochUtcIso 1700000000 } rfl⟩


/-!
## Fixtures and helper lemmas for the app layer
-/

/-- A cached payload as produced by an earlier successful fetch. -/
def payloadCached : Payload :=
  { symbol := "BTC"
    currency := "USD"
    price := .finite (5000012 / 100)
    source := "coingecko"
    provider_last_updated := .epochUtcIso 1700000000
    server_last_updated := .strftimeGmt 0
    stale := false
    cache_age_seconds := 0 }

/-- A cache filled at time `0` with `payloadCached`. -/
def cacheWithPayload : CacheState := { data := some payloadCached, fetched_at := 0 }

/-- The empty cache of process start. -/
def cacheEmpty : CacheState := { data := none, fetched_at := 0 }

/-- All wall-clock readings of a request taken at the same instant `t`. -/
def timesAt (t : ℚ) : Times :=
  { check := t, serverStamp := t, update := t, staleCheck := t }

/-- The readings of the stale-fallback counterexample: the freshness check
    happens at `t = 35`, the stale lookup at `t = 106/3 ≈ 35.33`. -/
def timesThirds : Times :=
  { check := 35, serverStamp := 35, update := 35, staleCheck := 106 / 3 }

/-- Evaluation of `pyRound2` when the scaled fractional part is below the
    rounding tie. -/
theorem pyRound2_eval_lt (q : ℚ) (f : ℤ) (hf : ⌊q * 100⌋ = f)
    (hlt : q * 100 - (f : ℚ) < 1 / 2) : pyRound2 q = (f : ℚ) / 100 := by
  simp only [pyRound2, pyRoundInt, hf]
  rw [if_pos hlt]

/-- An empty cache slot yields no cached price, stale allowed or not. -/
theorem get_cached_price_none (ttl now : ℚ) (c : CacheState) (als : Bool)
    (hd : c.data = none) : get_cached_price ttl now c als = none := by
  simp [get_cached_price, hd]

/-- An expired entry yields no cached price when stale is not allowed. -/
theorem get_cached_price_expired (ttl now : ℚ) (c : CacheState) (d : Payload)
    (hd : c.data = some d) (hexp : ¬ (now - c.fetched_at ≤ ttl)) :
    get_cached_price ttl now c false = none := by
  have hb : decide (now - c.fetched_at ≤ ttl) = false := decide_eq_false hexp
  unfold get_cached_price
  rw [hd]
  simp only [hb, Bool.not_false, Bool.and_self, if_true]

/-- A fresh entry yields the non-stale view, stale allowed or not. -/
theorem get_cached_price_fresh (ttl now : ℚ) (c : CacheState) (d : Payload) (als : Bool)
    (hd : c.data = some d) (hfresh : now - c.fetched_at ≤ ttl) :
    get_cached_price ttl now c als =
      some { data := d, age_seconds := now - c.fetched_at, stale := false } := by
  have hb : decide (now - c.fetched_at ≤ ttl) = true := decide_eq_true hfresh
  unfold get_cached_price
  rw [hd]
  simp only [hb, Bool.not_true, Bool.false_and]
  rfl

/-- With stale allowed and an entry present, the view is always served,
    its `stale` flag recording expiry. -/
theorem get_cached_price_allow_stale (ttl now : ℚ) (c : CacheState) (d : Payload)
    (hd : c.data = some d) :
    get_cached_price ttl now c true =
      some { data := d, age_seconds := now - c.fetched_at,
             stale := !decide (now - c.fetched_at ≤ ttl) } := by
  unfold get_cached_price
  rw [hd]
  simp only [Bool.not_true, Bool.and_false]
  rfl

/-- Route evaluation, fresh-hit branch. -/
theorem get_btc_price_hit (ttl : ℚ) (p : CoingeckoPriceProvider)
    (env : Nat → ℚ × AttemptOutcome) (tm : Times) (c : CacheState) (d : Payload)
    (hd : c.data = some d) (hfresh : tm.check - c.fetched_at ≤ ttl) :
    get_btc_price ttl p env tm c =
      (.okPayload { d with stale := false, cache_age_seconds := pyRound2 (tm.check - c.fetched_at) } none, c, 0) := by
  unfold get_btc_price
  rw [get_cached_price_fresh ttl tm.check c d false hd hfresh]

/-- Route evaluation, successful-fetch branch. -/
theorem get_btc_price_fetch_ok (ttl : ℚ) (p : CoingeckoPriceProvider)
    (env : Nat → ℚ × AttemptOutcome) (tm : Times) (c : CacheState) (q : Quote) (n : Nat)
    (hmiss : get_cached_price ttl tm.check c false = none)
    (hfetch : p.get_btc_usd_price env = (.ok q, n)) :
    get_btc_price ttl p env tm c =
      (.okPayload (mkResponsePayload q tm.serverStamp) none,
       { data := some (mkResponsePayload q tm.serverStamp), fetched_at := tm.update }, n) := by
  unfold get_btc_price
  rw [hmiss, hfetch]
  rfl

/-- Route evaluation, stale-fallback branch. -/
theorem get_btc_price_stale_serve (ttl : ℚ) (p : CoingeckoPriceProvider)
    (env : Nat → ℚ × AttemptOutcome) (tm : Times) (c : CacheState) (d : Payload)
    (e : String) (n : Nat)
    (hd : c.data = some d)
    (hmiss : get_cached_price ttl tm.check c false = none)
    (hfetch : p.get_btc_usd_price env = (.error e, n)) :
    get_btc_price ttl p env tm c =
      (.okPayload { d with stale := true, cache_age_seconds := pyRound2 (tm.staleCheck - c.fetched_at) } (some "Using stale cached price due to upstream error."), c, n) := by
  unfold get_btc_price
  rw [hmiss, hfetch, get_cached_price_allow_stale ttl tm.staleCheck c d hd]

/-- Route evaluation, hard-failure branch. -/
theorem get_btc_price_fail (ttl : ℚ) (p : CoingeckoPriceProvider)
    (env : Nat → ℚ × AttemptOutcome) (tm : Times) (c : CacheState) (e : String) (n : Nat)
    (hd : c.data = none) (hfetch : p.get_btc_usd_price env = (.error e, n)) :
    get_btc_price ttl p env tm c =
      (.errorResponse "Failed to fetch BTC price from upstream provider." e 502, c, n) := by
  unfold get_btc_price
  rw [get_cached_price_none ttl tm.check c false hd, hfetch,
    get_cached_price_none ttl tm.staleCheck c true hd]

/-!
## Claims about the route `get_btc_price`
-/

/-- C1. Freshness boundary: with a cached quote of age `≤ TTL` (the
    boundary age `TTL` included) the route serves the cached payload with
    `stale = false` and issues no upstream call; with age `> TTL` (and at
    least one configured attempt) a fetch attempt is made instead of
    serving the entry as fresh. -/
theorem freshness_boundary (ttl : ℚ) (p : CoingeckoPriceProvider)
    (env : Nat → ℚ × AttemptOutcome) (tm : Times) (c : CacheState) (d : Payload)
    (hd : c.data = some d) :
    (tm.check - c.fetched_at ≤ ttl →
      get_btc_price ttl p env tm c =
        (.okPayload { d with stale := false, cache_age_seconds := pyRound2 (tm.check - c.fetched_at) } none, c, 0)) ∧
    (ttl < tm.check - c.fetched_at → 1 ≤ p.retry_attempts →
      1 ≤ (get_btc_price ttl p env tm c).2.2) := by
  constructor
  · intro hfresh
    exact get_btc_price_hit ttl p env tm c d hd hfresh
  · intro hstale hk
    have hmiss : get_cached_price ttl tm.check c false = none :=
      get_cached_price_expired ttl tm.check c d hd (not_le.mpr hstale)
    have hpos := runAttempts_count_pos env p.retry_attempts.toNat 1 none (by omega)
    unfold get_btc_price
    rw [hmiss]
    rcases hfetch : p.get_btc_usd_price env with ⟨res, calls⟩
    have hcalls : 1 ≤ calls := by
      have hsnd : (p.get_btc_usd_price env).2 = calls := by rw [hfetch]
      rw [← hsnd]
      exact hpos
    cases res with
    | ok q => simpa using hcalls
    | error e =>
      cases get_cached_price ttl tm.staleCheck c true <;> simpa using hcalls

/-- Witness for C1: at age exactly `TTL = 30` the cache is served with
    `stale = false` and zero calls; at age `31` a fetch attempt is made. -/
theorem freshness_boundary_witness :
    get_btc_price 30 providerOne envAlwaysNetErr (timesAt 30) cacheWithPayload =
      (.okPayload { payloadCached with stale := false, cache_age_seconds := pyRound2 (30 - 0) } none, cacheWithPayload, 0) ∧
    1 ≤ (get_btc_price 30 providerOne envAlwaysNetErr (timesAt 31) cacheWithPayload).2.2 :=
  ⟨(freshness_boundary 30 providerOne envAlwaysNetErr (timesAt 30) cacheWithPayload
      payloadCached rfl).1 (by norm_num [timesAt, cacheWithPayload]),
   (freshness_boundary 30 providerOne envAlwaysNetErr (timesAt 31) cacheWithPayload
      payloadCached rfl).2 (by norm_num [timesAt, cacheWithPayload]) (by decide)⟩

/-- C3 fails on the code as literally stated: the served
    `cache_age_seconds` is Python's `round(age, 2)`, not the entry's age
    itself.  With the cache filled at time `0` and the stale lookup at
    time `106/3`, the entry's age is `106/3 ≈ 35.3333` but the payload
    carries `35.33`. -/
theorem stale_fallback_counterexample :
    (get_btc_price 30 providerOne envAlwaysNetErr timesThirds cacheWithPayload).1 =
      .okPayload { payloadCached with stale := true, cache_age_seconds := 3533 / 100 } (some "Using stale cached price due to upstream error.") ∧
    timesThirds.staleCheck - cacheWithPayload.fetched_at = 106 / 3 ∧
    (3533 / 100 : ℚ) ≠ 106 / 3 := by
  have hmiss : get_cached_price 30 timesThirds.check cacheWithPayload false = none :=
    get_cached_price_expired 30 timesThirds.check cacheWithPayload payloadCached rfl
      (by norm_num [timesThirds, cacheWithPayload])
  have heq := get_btc_price_stale_serve 30 providerOne envAlwaysNetErr timesThirds
    cacheWithPayload payloadCached ("Network error calling Coingecko: " ++ "boom") 1
    rfl hmiss rfl
  have hround : pyRound2 (timesThirds.staleCheck - cacheWithPayload.fetched_at) = 3533 / 100 := by
    have hf : ⌊(timesThirds.staleCheck - cacheWithPayload.fetched_at) * 100⌋ = 3533 := by
      rw [Int.floor_eq_iff]
      norm_num [timesThirds, cacheWithPayload]
    rw [pyRound2_eval_lt _ 3533 hf (by rw [show timesThirds.staleCheck - cacheWithPayload.fetched_at = 106 / 3 from by norm_num [timesThirds, cacheWithPayload]]; norm_num)]
    norm_num
  refine ⟨?_, by norm_num [timesThirds, cacheWithPayload], by norm_num⟩
  rw [heq]
  rw [hround]

/-- C3 amended: whenever the fetch raises a `PriceProviderError` and a
    cached quote is present (regardless of its age), the route returns a
    200 payload carrying the cached data with `stale = true`, the warning
    string, and `cache_age_seconds` equal to the entry's age rounded to
    two decimals (Python `round(age, 2)`) — never a hard failure. -/
theorem stale_fallback_amended (ttl : ℚ) (p : CoingeckoPriceProvider)
    (env : Nat → ℚ × AttemptOutcome) (tm : Times) (c : CacheState) (d : Payload)
    (e : String) (n : Nat)
    (hd : c.data = some d)
    (hmiss : get_cached_price ttl tm.check c false = none)
    (hfetch : p.get_btc_usd_price env = (.error e, n)) :
    get_btc_price ttl p env tm c =
      (.okPayload { d with stale := true, cache_age_seconds := pyRound2 (tm.staleCheck - c.fetched_at) } (some "Using stale cached price due to upstream error."), c, n) :=
  get_btc_price_stale_serve ttl p env tm c d e n hd hmiss hfetch

/-- Witness for the amended C3 at age `36 > TTL = 30`. -/
theorem stale_fallback_amended_witness :
    get_btc_price 30 providerOne envAlwaysNetErr (timesAt 36) cacheWithPayload =
      (.okPayload { payloadCached with stale := true, cache_age_seconds := pyRound2 (36 - 0) } (some "Using stale cached price due to upstream error."), cacheWithPayload, 1) :=
  stale_fallback_amended 30 providerOne envAlwaysNetErr (timesAt 36) cacheWithPayload
    payloadCached ("Network error calling Coingecko: " ++ "boom") 1 rfl
    (get_cached_price_expired 30 (timesAt 36).check cacheWithPayload payloadCached rfl
      (by norm_num [timesAt, cacheWithPayload]))
    rfl

/-- C4. No-cache hard failure: with an empty cache slot and a failing
    fetch, the route returns the classified 502 error response and no
    quote. -/
theorem no_cache_hard_failure (ttl : ℚ) (p : CoingeckoPriceProvider)
    (env : Nat → ℚ × AttemptOutcome) (tm : Times) (c : CacheState) (e : String) (n : Nat)
    (hd : c.data = none) (hfetch : p.get_btc_usd_price env = (.error e, n)) :
    get_btc_price ttl p env tm c =
      (.errorResponse "Failed to fetch BTC price from upstream provider." e 502, c, n) :=
  get_btc_price_fail ttl p env tm c e n hd hfetch

/-- Witness for C4 with the empty initial cache and an always-failing
    network. -/
theorem no_cache_hard_failure_witness :
    get_btc_price 30 providerOne envAlwaysNetErr (timesAt 0) cacheEmpty =
      (.errorResponse "Failed to fetch BTC price from upstream provider."
        ("Network error calling Coingecko: " ++ "boom") 502, cacheEmpty, 1) :=
  no_cache_hard_failure 30 providerOne envAlwaysNetErr (timesAt 0) cacheEmpty
    ("Network error calling Coingecko: " ++ "boom") 1 rfl rfl

/-- C6. Cache mutation only on success: the cache slot after a request is
    overwritten (via `update_cache` with the normalized payload) exactly
    when the cache missed and the fetch succeeded, and is unchanged on
    every other path (fresh hit, stale fallback, hard failure).
    `get_cached_price` is a pure function of the state and mutates
    nothing by construction. -/
theorem cache_mutation_only_on_success (ttl : ℚ) (p : CoingeckoPriceProvider)
    (env : Nat → ℚ × AttemptOutcome) (tm : Times) (c : CacheState) :
    (get_btc_price ttl p env tm c).2.1 =
      match get_cached_price ttl tm.check c false with
      | some _ => c
      | none =>
        match p.get_btc_usd_price env with
        | (.ok q, _) => update_cache tm.update (mkResponsePayload q tm.serverStamp) c
        | (.error _, _) => c := by
  unfold get_btc_price
  cases get_cached_price ttl tm.check c false with
  | some cached => rfl
  | none =>
    rcases hfx : p.get_btc_usd_price env with ⟨res, calls⟩
    cases res with
    | ok q => rfl
    | error e =>
      cases get_cached_price ttl tm.staleCheck c true <;> rfl

/-- C8 fails on the code as literally stated: with two calls and exactly
    one upstream invocation, the second call's `cache_age_seconds` is
    `round(elapsed, 2)` and can fall *below* the elapsed interval.  Here
    the second call happens `1/3` s after the fetch but reports `0.33`. -/
theorem idempotent_cache_hit_counterexample :
    (get_btc_price 30 providerOne envHealthy (timesAt 0) cacheEmpty).2.2 = 1 ∧
    (get_btc_price 30 providerOne envHealthy (timesAt (1 / 3)) (get_btc_price 30 providerOne envHealthy (timesAt 0) cacheEmpty).2.1).2.2 = 0 ∧
    ∃ pay, (get_btc_price 30 providerOne envHealthy (timesAt (1 / 3)) (get_btc_price 30 providerOne envHealthy (timesAt 0) cacheEmpty).2.1).1 = .okPayload pay none ∧
      pay.cache_age_seconds < (timesAt (1 / 3)).check - (timesAt 0).update := by
  have hfetch1 : providerOne.get_btc_usd_price envHealthy = (.ok quoteHealthy, 1) := rfl
  have h1 := get_btc_price_fetch_ok 30 providerOne envHealthy (timesAt 0) cacheEmpty
    quoteHealthy 1 (get_cached_price_none 30 (timesAt 0).check cacheEmpty false rfl) hfetch1
  have h2 := get_btc_price_hit 30 providerOne envHealthy (timesAt (1 / 3))
    { data := some (mkResponsePayload quoteHealthy (timesAt 0).serverStamp),
      fetched_at := (timesAt 0).update }
    (mkResponsePayload quoteHealthy (timesAt 0).serverStamp) rfl (by norm_num [timesAt])
  have hround : pyRound2 ((1 : ℚ) / 3 - 0) = 33 / 100 := by
    have hf : ⌊((1 : ℚ) / 3 - 0) * 100⌋ = 33 := by
      rw [Int.floor_eq_iff]
      norm_num
    rw [pyRound2_eval_lt _ 33 hf (by norm_num)]
    norm_num
  refine ⟨congrArg (fun t => t.2.2) h1, congrArg (fun t => t.2.2) h2,
    ⟨_, congrArg (fun t => t.1) h2, ?_⟩⟩
  show pyRound2 ((1 : ℚ) / 3 - 0) < (1 : ℚ) / 3 - 0
  rw [hround]
  norm_num

/-- C8 amended: two calls where the first fetch succeeds and the second
    comes within TTL of the cache update cause exactly one upstream
    invocation in total; the second call's `cache_age_seconds` is the
    elapsed interval since the cache update rounded to two decimals
    (within `0.005` below the true elapsed time, not necessarily `≥` it). -/
theorem idempotent_cache_hit_amended (ttl : ℚ) (p : CoingeckoPriceProvider)
    (env1 env2 : Nat → ℚ × AttemptOutcome) (tm1 tm2 : Times) (c0 : CacheState) (q : Quote)
    (hempty : c0.data = none)
    (hk : 1 ≤ p.retry_attempts)
    (hfirst : attemptStep (env1 1).1 (env1 1).2 = .ok q)
    (hwithin : tm2.check - tm1.update ≤ ttl) :
    (get_btc_price ttl p env1 tm1 c0).2.2 = 1 ∧
    (get_btc_price ttl p env2 tm2 (get_btc_price ttl p env1 tm1 c0).2.1).2.2 = 0 ∧
    (get_btc_price ttl p env2 tm2 (get_btc_price ttl p env1 tm1 c0).2.1).1 =
      .okPayload { mkResponsePayload q tm1.serverStamp with stale := false, cache_age_seconds := pyRound2 (tm2.check - tm1.update) } none ∧
    tm2.check - tm1.update - 1 / 200 ≤ pyRound2 (tm2.check - tm1.update) := by
  have hfetch1 : p.get_btc_usd_price env1 = (.ok q, 1) := by
    obtain ⟨m, hm⟩ : ∃ m, p.retry_attempts.toNat = m + 1 :=
      ⟨p.retry_attempts.toNat - 1, by omega⟩
    unfold CoingeckoPriceProvider.get_btc_usd_price
    rw [hm]
    simp [runAttempts, hfirst]
  have h1 := get_btc_price_fetch_ok ttl p env1 tm1 c0 q 1
    (get_cached_price_none ttl tm1.check c0 false hempty) hfetch1
  have h2 := get_btc_price_hit ttl p env2 tm2
    { data := some (mkResponsePayload q tm1.serverStamp), fetched_at := tm1.update }
    (mkResponsePayload q tm1.serverStamp) rfl hwithin
  refine ⟨congrArg (fun t => t.2.2) h1, ?_, ?_, pyRound2_ge (tm2.check - tm1.update)⟩
  · rw [h1]
    exact congrArg (fun t => t.2.2) h2
  · rw [h1]
    exact congrArg (fun t => t.1) h2

/-- Witness for the amended C8: fetch at `t = 0`, second call at
    `t = 1/3` within `TTL = 30`. -/
theorem idempotent_cache_hit_amended_witness :
    (get_btc_price 30 providerOne envHealthy (timesAt 0) cacheEmpty).2.2 = 1 ∧
    (get_btc_price 30 providerOne envHealthy (timesAt (1 / 3)) (get_btc_price 30 providerOne envHealthy (timesAt 0) cacheEmpty).2.1).2.2 = 0 ∧
    (get_btc_price 30 providerOne envHealthy (timesAt (1 / 3)) (get_btc_price 30 providerOne envHealthy (timesAt 0) cacheEmpty).2.1).1 =
      .okPayload { mkResponsePayload quoteHealthy (timesAt 0).serverStamp with stale := false, cache_age_seconds := pyRound2 ((timesAt (1 / 3)).check - (timesAt 0).update) } none ∧
    (timesAt (1 / 3)).check - (timesAt 0).update - 1 / 200 ≤ pyRound2 ((timesAt (1 / 3)).check - (timesAt 0).update) :=
  idempotent_cache_hit_amended 30 providerOne envHealthy envHealthy (timesAt 0)
    (timesAt (1 / 3)) cacheEmpty quoteHealthy rfl (by decide) rfl
    (by norm_num [timesAt])
